import Mathlib

/-!
Verification of the Canvas-Backend lead/competition slice.

This file shallowly embeds the role-scoped access-control and lead-lifecycle
logic of the repository (`src/routes/leads.py`, `src/routes/users.py`,
`src/routes/competitions.py`, `src/services/helpers.py`) and proves the
spec-level properties about it.

Modelling conventions:
* MongoDB documents become Lean structures; a collection is a `List` of
  documents.  `find_one` is `List.find?` on the filter predicate and
  `update_one` updates the first matching document only, mirroring Mongo's
  single-document update semantics.
* Role and status strings stay strings, mirroring the stringly-typed source.
* Python `datetime` values are abstracted to `Nat` instants (the claims never
  compute with real time).
* `HTTPException` raises become `Except String` results.  A handler that
  mutates the store before a raise returns the mutated store alongside the
  error, exactly as the database keeps such writes in the source.
* Monetary amounts (`float` in the source) are modelled as exact rationals;
  Python `int()` on a number is truncation toward zero (`pyInt`).
* External collaborators that the spec scopes out (photo storage, QuickBase,
  notification dispatch, JWT auth) are omitted: they do not touch the lead,
  user or competition documents that the claims are about.
-/

namespace Canvas

/-- One entry of a user's append-only points ledger (the `$push` payload in
the source, without the timestamp). -/
structure HistEntry where
  action : String
  points : Int
  reason : String
deriving Repr, DecidableEq

/-- A document of the `users` collection (the fields the verified slice
reads or writes).  `id` is the string form of the Mongo `_id`. -/
structure User where
  id : String
  username : String
  role : String
  organization_id : Option String
  manager_id : Option String
  points : Int
  points_history : List HistEntry
  is_active : Bool
deriving Repr, DecidableEq

/-- The authenticated identity supplied by `get_current_user_from_token`:
the `current_user` dict used by every handler. -/
structure Actor where
  id : String
  username : String
  role : String
  organization_id : Option String
deriving Repr, DecidableEq

/-- The superstar overlay stored by `mark_superstar_lead`. -/
structure SuperstarInfo where
  reason : String
  priority_level : Int
  special_notes : Option String
  marked_by : String
deriving Repr, DecidableEq

/-- A document of the `leads` collection (the fields the verified slice
reads or writes). -/
structure Lead where
  lead_id : String
  organization_id : Option String
  created_by : String
  lead_status : String
  assigned_manager : Option String
  approved_by : Option String
  approval_timestamp : Option Nat
  approval_notes : Option String
  rejection_reason : Option String
  sale_amount : Option ℚ
  sale_date : Option Nat
  sale_notes : Option String
  sold_by : Option String
  superstar_info : Option SuperstarInfo
  is_active : Bool
deriving Repr, DecidableEq

/-- Mongo `update_one`: apply `f` to the first element satisfying `p`,
leave everything else in place. -/
def updateFirst (p : α → Bool) (f : α → α) : List α → List α
  | [] => []
  | x :: xs => if p x then f x :: xs else x :: updateFirst p f xs

/-- Python `int()` applied to an exact rational: truncation toward zero. -/
def pyInt (q : ℚ) : Int :=
  if 0 ≤ q then q.floor else -((-q).floor)

/-- `Rat.floor` agrees with the floor of the `FloorRing` instance. -/
theorem rat_floor_eq_floor (q : ℚ) : q.floor = ⌊q⌋ := by
  rw [Rat.floor_def', ← Rat.floor_def]

/-- `pyInt` written with the `FloorRing` floor. -/
theorem pyInt_spec (q : ℚ) : pyInt q = if 0 ≤ q then ⌊q⌋ else -⌊-q⌋ := by
  simp [pyInt, rat_floor_eq_floor]

/-- Python truthiness of an optional string (`if s:`): present and
non-empty. -/
def strTruthy : Option String → Bool
  | none => false
  | some s => s ≠ ""

/-- The `$inc points / $push points_history` update the lead handlers issue
against the `users` collection for one username. -/
def awardPoints (users : List User) (username : String) (delta : Int)
    (entry : HistEntry) : List User :=
  updateFirst (fun u => u.username = username)
    (fun u => { u with points := u.points + delta,
                       points_history := u.points_history ++ [entry] })
    users

/-- `helpers.check_lead_access`: whether `current_user` may act on `lead`.
The `users` argument is the live `users` collection; the manager branch
re-reads the creator's document from it on every call. -/
def check_lead_access (current_user : Actor) (lead : Lead)
    (users : List User) : Bool :=
  if current_user.role = "super_admin" then
    true
  else if current_user.role = "admin_manager" then
    lead.organization_id = current_user.organization_id
  else if current_user.role = "manager" then
    if lead.organization_id ≠ current_user.organization_id then
      false
    else
      match users.find? (fun u => u.username = lead.created_by) with
      | some creator => creator.manager_id = some current_user.username
      | none => false
  else if current_user.role = "canvasser" then
    lead.created_by = current_user.username
  else
    false

/-- `helpers.check_user_access`: whether `current_user` may access or modify
`target_user`. -/
def check_user_access (current_user : Actor) (target_user : User) : Bool :=
  if current_user.role = "super_admin" then
    true
  else if current_user.role = "admin_manager" then
    target_user.organization_id = current_user.organization_id
  else if current_user.role = "manager" then
    if target_user.id = current_user.id then
      true
    else
      target_user.manager_id = some current_user.username ∧
        target_user.role = "canvasser"
  else if current_user.role = "canvasser" then
    target_user.id = current_user.id
  else
    false

/-- Request body of the approve endpoint (`LeadApproval` in `schemas.py`). -/
structure LeadApproval where
  approve : Bool
  rejection_reason : Option String
  notes : Option String
deriving Repr, DecidableEq

/-- Request body of the mark-sold endpoint (`LeadSold` in `schemas.py`): an
unconstrained number plus optional date and notes. -/
structure LeadSold where
  sale_amount : ℚ
  sale_date : Option Nat
  sale_notes : Option String
deriving Repr, DecidableEq

/-- Request body of the mark-superstar endpoint (`SuperstarLead` in
`schemas.py`). -/
structure SuperstarLead where
  reason : String
  priority_level : Int
  special_notes : Option String
deriving Repr, DecidableEq

/-- Result of a lead handler: the HTTP outcome plus the post-state of the
lead document and the `users` collection. -/
structure LeadResult where
  response : Except String String
  lead : Lead
  users : List User
deriving Repr

/-- `leads.approve_lead` (body after the lead has been found): permission
check, pending check, then either the approve update with the 25-point award
to the creator, or the reject update with no points change. -/
def approve_lead (lead : Lead) (approval_data : LeadApproval)
    (current_user : Actor) (users : List User) (now : Nat) : LeadResult :=
  if current_user.role ∉ ["super_admin", "admin_manager", "manager"] then
    ⟨Except.error "You don't have permission to approve leads", lead, users⟩
  else if lead.lead_status ≠ "pending" then
    ⟨Except.error "Only pending leads can be approved or rejected", lead, users⟩
  else if approval_data.approve then
    let users1 :=
      if lead.created_by ≠ "" then
        awardPoints users lead.created_by 25
          ⟨"add", 25, "Lead approved: " ++ lead.lead_id⟩
      else users
    let lead1 := { lead with
      lead_status := "approved",
      approved_by := some current_user.username,
      approval_timestamp := some now,
      approval_notes :=
        if strTruthy approval_data.notes then approval_data.notes
        else lead.approval_notes }
    ⟨Except.ok "Lead approved successfully", lead1, users1⟩
  else
    let lead1 := { lead with
      lead_status := "cancelled",
      approved_by := some current_user.username,
      approval_timestamp := some now,
      rejection_reason := approval_data.rejection_reason }
    ⟨Except.ok "Lead rejected successfully", lead1, users⟩

/-- `leads.mark_lead_sold` (body after the lead has been found): access
check, unconditional sale update (the handler has no lead-status check), and
the commission award `int(sale_amount * 0.01)` to the creator. -/
def mark_lead_sold (lead : Lead) (sale_data : LeadSold)
    (current_user : Actor) (users : List User) (now : Nat) : LeadResult :=
  if ¬ check_lead_access current_user lead users then
    ⟨Except.error "You don't have permission to mark this lead as sold",
      lead, users⟩
  else
    let lead1 := { lead with
      lead_status := "sold",
      sale_amount := some sale_data.sale_amount,
      sale_date := some (sale_data.sale_date.getD now),
      sale_notes := sale_data.sale_notes,
      sold_by := some current_user.username }
    let commission_points := pyInt (sale_data.sale_amount * (1 / 100))
    let users1 :=
      if lead.created_by ≠ "" then
        awardPoints users lead.created_by commission_points
          ⟨"add", commission_points, "Lead sold: " ++ lead.lead_id⟩
      else users
    ⟨Except.ok "Lead marked as sold successfully", lead1, users1⟩

/-- `leads.mark_superstar_lead` (body after the lead has been found):
role check, unconditional superstar update (no lead-status check), and the
`priority_level * 10` bonus to the creator. -/
def mark_superstar_lead (lead : Lead) (superstar_data : SuperstarLead)
    (current_user : Actor) (users : List User) : LeadResult :=
  if current_user.role ∉ ["super_admin", "admin_manager", "manager"] then
    ⟨Except.error "You don't have permission to mark superstar leads",
      lead, users⟩
  else
    let info : SuperstarInfo :=
      { reason := superstar_data.reason,
        priority_level := superstar_data.priority_level,
        special_notes := superstar_data.special_notes,
        marked_by := current_user.username }
    let lead1 := { lead with
      lead_status := "superstar",
      superstar_info := some info }
    let bonus_points := superstar_data.priority_level * 10
    let users1 :=
      if lead.created_by ≠ "" then
        awardPoints users lead.created_by bonus_points
          ⟨"add", bonus_points, "Superstar lead: " ++ lead.lead_id⟩
      else users
    ⟨Except.ok "Lead marked as superstar successfully", lead1, users1⟩

/-- Left-pad with zeros to width `n` (Python `str.zfill`). -/
def zfill (n : Nat) (s : String) : String :=
  String.mk (List.replicate (n - s.length) '0') ++ s

/-- `helpers.generate_lead_id`: `LEAD_<org number>_<count+1 zero-padded>`
where the count is the number of leads already stored for the
organization. -/
def generate_lead_id (organization_id : String) (leads : List Lead) : String :=
  let count := (leads.filter
    (fun l => l.organization_id = some organization_id)).length
  let org_number :=
    if (organization_id.splitOn "_").length > 1 then
      (organization_id.splitOn "_").getLastD "001"
    else "001"
  "LEAD_" ++ org_number ++ "_" ++ zfill 4 (toString (count + 1))

/-- Result of the create-lead handler: HTTP outcome carrying
`(status, points_earned)` plus the post-state of both collections. -/
structure CreateLeadResult where
  response : Except String (String × Int)
  users : List User
  leads : List Lead
deriving Repr

/-- `leads.create_lead_with_notifications`: initial status from the
creator's role (admin tier self-approves, otherwise pending), the
assigned-manager lookup for canvassers, the insert, and the flat 10-point
creation award for canvassers.  The payload fields that are copied verbatim
into the document (client name, phone, address, …) and the out-of-scope
QuickBase/photo/notification calls are elided; an absent `organization_id`
or a missing creator document makes the handler raise, surfacing as the
generic 500 error of its `except` block before any write happens. -/
def create_lead_with_notifications (current_user : Actor)
    (users : List User) (leads : List Lead) (now : Nat) : CreateLeadResult :=
  match current_user.organization_id with
  | none => ⟨Except.error "Failed to create lead", users, leads⟩
  | some org =>
    let lead_id := generate_lead_id org leads
    let admin_tier := current_user.role ∈ ["super_admin", "admin_manager"]
    let initial_status := if admin_tier then "approved" else "pending"
    let doc0 : Lead :=
      { lead_id := lead_id,
        organization_id := some org,
        created_by := current_user.username,
        lead_status := initial_status,
        assigned_manager := none,
        approved_by := if admin_tier then some current_user.username else none,
        approval_timestamp := if admin_tier then some now else none,
        approval_notes := none,
        rejection_reason := none,
        sale_amount := none,
        sale_date := none,
        sale_notes := none,
        sold_by := none,
        superstar_info := none,
        is_active := true }
    if current_user.role = "canvasser" then
      match users.find? (fun u => u.username = current_user.username) with
      | none => ⟨Except.error "Failed to create lead", users, leads⟩
      | some u =>
        let doc := { doc0 with assigned_manager := u.manager_id }
        let users1 := awardPoints users current_user.username 10
          ⟨"add", 10, "Created lead: " ++ lead_id⟩
        ⟨Except.ok (initial_status, 10), users1, leads ++ [doc]⟩
    else
      ⟨Except.ok (initial_status, 0), users, leads ++ [doc0]⟩

/-- The update payload of the user-update endpoint, restricted to the
`role` field (the only field the role-change rules concern; the other
payload fields flow through independent branches of the handler). -/
structure UserUpdate where
  role : Option String
deriving Repr, DecidableEq

/-- The `role_change_permissions` table of `users.update_user`: which roles
each actor role may assign (`.get(current_role, [])` defaults to none). -/
def role_change_permissions (current_role : String) : List String :=
  if current_role = "super_admin" then
    ["super_admin", "admin_manager", "manager", "canvasser"]
  else if current_role = "admin_manager" then
    ["manager", "canvasser"]
  else if current_role = "manager" then []
  else if current_role = "canvasser" then []
  else []

/-- The `can_update` gate of `users.update_user`: the role-based update
permission computed before any field is validated. -/
def can_update (current_user : Actor) (target_user : User) : Bool :=
  if current_user.role = "super_admin" then
    true
  else if current_user.role = "admin_manager" then
    if target_user.organization_id = current_user.organization_id then
      if target_user.role ∉ ["super_admin", "admin_manager"] then true
      else if target_user.role = "admin_manager" ∧
          target_user.id = current_user.id then true
      else false
    else false
  else if current_user.role = "manager" then
    if target_user.id = current_user.id then true
    else if target_user.manager_id = some current_user.username ∧
        target_user.role = "canvasser" then true
    else false
  else if current_user.role = "canvasser" then
    target_user.id = current_user.id
  else
    false

/-- `users.update_user` (body after the target has been found), for a
payload that sets only `role`: the `can_update` gate, the role-change
validation against `role_change_permissions`, the canvasser
restricted-field check, and finally the role written into `update_data`
(`none` when the role field stays as it is).  The role-change validation
and the final write both trigger only when the requested role is truthy
and differs from the target's current role. -/
def update_user (current_user : Actor) (target_user : User)
    (user_update : UserUpdate) : Except String (Option String) :=
  if ¬ can_update current_user target_user then
    Except.error (current_user.role ++ " cannot update this user")
  else
    let roleCheck : Except String Unit :=
      match user_update.role with
      | some r =>
        if r ≠ "" ∧ r ≠ target_user.role then
          if r ∈ role_change_permissions current_user.role then Except.ok ()
          else Except.error
            (current_user.role ++ " cannot change user role to " ++ r)
        else Except.ok ()
      | none => Except.ok ()
    match roleCheck with
    | Except.error e => Except.error e
    | Except.ok _ =>
      if current_user.role = "canvasser" ∧ user_update.role ≠ none then
        Except.error "Canvassers cannot update the role field"
      else
        match user_update.role with
        | some r =>
          if r ≠ "" ∧ r ≠ target_user.role then Except.ok (some r)
          else Except.ok none
        | none => Except.ok none

/-- Request body of the create-competition endpoint (`CompetitionCreate` in
`schemas.py`, the fields the handler reads). -/
structure CompetitionCreate where
  title : String
  start_date : Nat
  end_date : Nat
  prize_points : Int
  target_roles : List String
  min_participants : Nat
  is_active : Bool
  participant_selection_mode : String
  selected_participants : Option (List String)
deriving Repr, DecidableEq

/-- A document of the `competitions` collection (the fields the verified
slice reads or writes). -/
structure Competition where
  competition_id : String
  title : String
  start_date : Nat
  end_date : Nat
  prize_points : Int
  target_roles : List String
  organization_id : String
  min_participants : Nat
  status : String
  is_active : Bool
  participant_selection_mode : String
  selected_participants : Option (List String)
  created_by : String
deriving Repr, DecidableEq

/-- Modelled from the spec: `check_competition_permission` is called by the
competition routes but not defined under `src/`; per the spec's role table,
competition management is an admin-tier/manager capability. -/
def check_competition_permission (current_user : Actor) : Bool :=
  current_user.role ∈ ["super_admin", "admin_manager", "manager"]

/-- Modelled from the spec: `get_competition_participants` is called by the
competition routes but not defined under `src/`.  Spec §4.3: mode
`specific` yields exactly `selected_participants`; modes `all`/`roles`
yield every active user of the competition's organization whose role is in
`target_roles`. -/
def get_competition_participants (comp : Competition)
    (users : List User) : List String :=
  if comp.participant_selection_mode = "specific" then
    comp.selected_participants.getD []
  else
    (users.filter (fun u => u.is_active ∧
      u.organization_id = some comp.organization_id ∧
      u.role ∈ comp.target_roles)).map (fun u => u.username)

/-- Modelled from the spec: `generate_competition_id` is called by the
create handler but not defined under `src/`; an org-scoped sequential
identifier in the style of `generate_lead_id`. -/
def generate_competition_id (organization_id : String)
    (competitions : List Competition) : String :=
  let count := (competitions.filter
    (fun c => c.organization_id = organization_id)).length
  "COMP_" ++ organization_id ++ "_" ++ zfill 4 (toString (count + 1))

/-- Result of the create-competition handler: HTTP outcome carrying
`(competition_id, participant_count)` plus the post-state of the
`competitions` collection — which keeps the insert even when the handler
raises afterwards. -/
structure CreateCompetitionResult where
  response : Except String (String × Nat)
  competitions : List Competition
deriving Repr

/-- `competitions.create_competition`: permission, date and organization
checks, the write-time validation of mode `specific`, then the insert of
the document, and only after the insert the eligible-participant count
check — whose failure raises without removing the inserted document. -/
def create_competition (current_user : Actor) (data : CompetitionCreate)
    (users : List User) (competitions : List Competition)
    (now : Nat) : CreateCompetitionResult :=
  if ¬ check_competition_permission current_user then
    ⟨Except.error "You don't have permission to create competitions",
      competitions⟩
  else if data.end_date ≤ data.start_date then
    ⟨Except.error "End date must be after start date", competitions⟩
  else if ¬ strTruthy current_user.organization_id then
    ⟨Except.error "You must belong to an organization to create competitions",
      competitions⟩
  else
    let org := current_user.organization_id.getD ""
    let specificCheck : Except String Unit :=
      if data.participant_selection_mode = "specific" then
        match data.selected_participants with
        | none => Except.error "Must select enough participants"
        | some sel =>
          if sel = [] ∨ sel.length < data.min_participants then
            Except.error "Must select enough participants"
          else if sel.all (fun un => (users.find? (fun u =>
              u.username = un ∧ u.organization_id = some org ∧
              u.is_active)).isSome) then
            Except.ok ()
          else Except.error "User not found in your organization"
      else Except.ok ()
    match specificCheck with
    | Except.error e => ⟨Except.error e, competitions⟩
    | Except.ok _ =>
      let competition_id := generate_competition_id org competitions
      let status_value :=
        if now < data.start_date then "upcoming"
        else if data.end_date < now then "completed"
        else "active"
      let doc : Competition :=
        { competition_id := competition_id,
          title := data.title,
          start_date := data.start_date,
          end_date := data.end_date,
          prize_points := data.prize_points,
          target_roles := data.target_roles,
          organization_id := org,
          min_participants := data.min_participants,
          status := status_value,
          is_active := data.is_active,
          participant_selection_mode := data.participant_selection_mode,
          selected_participants := data.selected_participants,
          created_by := current_user.username }
      let competitions1 := competitions ++ [doc]
      let participants := get_competition_participants doc users
      if participants.length < data.min_participants then
        ⟨Except.error "Not enough eligible participants", competitions1⟩
      else
        ⟨Except.ok (competition_id, participants.length), competitions1⟩

/-! ## Concrete fixtures used by witnesses and counterexamples -/

/-- Canvasser `jdoe` of `org_1`, managed by `msmith`, at baseline points. -/
def jdoe : User :=
  ⟨"u1", "jdoe", "canvasser", some "org_1", some "msmith", 0, [], true⟩

/-- Manager `msmith` of `org_1`. -/
def msmithUser : User :=
  ⟨"u2", "msmith", "manager", some "org_1", none, 0, [], true⟩

/-- Admin manager `admin1` of `org_1`. -/
def admin1User : User :=
  ⟨"u3", "admin1", "admin_manager", some "org_1", none, 0, [], true⟩

/-- A super admin stored in `org_1` (target fixture). -/
def rootUser : User :=
  ⟨"u9", "root2", "super_admin", some "org_1", none, 0, [], true⟩

/-- The token identity of `jdoe`. -/
def jdoeActor : Actor := ⟨"u1", "jdoe", "canvasser", some "org_1"⟩

/-- The token identity of `msmith`. -/
def msmithActor : Actor := ⟨"u2", "msmith", "manager", some "org_1"⟩

/-- The token identity of `admin1`. -/
def admin1Actor : Actor := ⟨"u3", "admin1", "admin_manager", some "org_1"⟩

/-- The token identity of a global super admin. -/
def superActor : Actor := ⟨"u0", "root", "super_admin", none⟩

/-- A pending lead of `org_1` created by `jdoe`. -/
def lead0 : Lead :=
  { lead_id := "LEAD_1_0001",
    organization_id := some "org_1",
    created_by := "jdoe",
    lead_status := "pending",
    assigned_manager := some "msmith",
    approved_by := none,
    approval_timestamp := none,
    approval_notes := none,
    rejection_reason := none,
    sale_amount := none,
    sale_date := none,
    sale_notes := none,
    sold_by := none,
    superstar_info := none,
    is_active := true }

/-- `lead0` after approval by `msmith`. -/
def approvedLead : Lead :=
  { lead0 with lead_status := "approved", approved_by := some "msmith" }

/-- `lead0` after rejection. -/
def cancelledLead : Lead :=
  { lead0 with lead_status := "cancelled" }

/-- A sold lead with its sale fields populated. -/
def soldLead : Lead :=
  { approvedLead with lead_status := "sold", sale_amount := some 500,
                      sale_date := some 9, sold_by := some "admin1" }

/-! ## Shared lemmas -/

/-- Looking up a username after `awardPoints` for that username sees the
incremented points and the appended history entry. -/
theorem find?_awardPoints (users : List User) (username : String)
    (delta : Int) (entry : HistEntry) :
    (awardPoints users username delta entry).find?
        (fun u => u.username = username) =
      (users.find? (fun u => u.username = username)).map
        (fun u => { u with points := u.points + delta,
                           points_history := u.points_history ++ [entry] }) := by
  induction users with
  | nil => rfl
  | cons x xs ih =>
    unfold awardPoints updateFirst
    by_cases h : x.username = username
    · simp [h]
    · simpa [h] using ih

/-! ## Claims -/

/-- C2: for an actor whose role passes the permission gate, the approve
endpoint on a lead that is not pending (in particular one already approved)
fails with the invalid-state error, and both the lead document and the
users collection are returned unchanged; consequently approve succeeds only
from `pending`. -/
theorem approve_only_from_pending (lead : Lead) (approval_data : LeadApproval)
    (current_user : Actor) (users : List User) (now : Nat)
    (hrole : current_user.role ∈ ["super_admin", "admin_manager", "manager"])
    (hstat : lead.lead_status ≠ "pending") :
    approve_lead lead approval_data current_user users now =
      ⟨Except.error "Only pending leads can be approved or rejected",
        lead, users⟩ := by
  simp [approve_lead, hrole, hstat]

/-- Witness for C2: a second approve call on the already-approved
`approvedLead` fails with the invalid-state error and changes nothing. -/
theorem approve_only_from_pending_witness :
    approve_lead approvedLead ⟨true, none, none⟩ msmithActor [jdoe] 3 =
      ⟨Except.error "Only pending leads can be approved or rejected",
        approvedLead, [jdoe]⟩ :=
  approve_only_from_pending approvedLead ⟨true, none, none⟩ msmithActor
    [jdoe] 3 (by decide) (by decide)

/-- C9: a reject call (`approve = false`) never changes the users
collection — so the creator's points and points history are untouched — and
when it succeeds it only rewrites the lead document, setting the status to
`cancelled` and recording the rejection reason. -/
theorem reject_preserves_points (lead : Lead) (approval_data : LeadApproval)
    (current_user : Actor) (users : List User) (now : Nat)
    (hrej : approval_data.approve = false) :
    (approve_lead lead approval_data current_user users now).users = users ∧
    (current_user.role ∈ ["super_admin", "admin_manager", "manager"] →
      lead.lead_status = "pending" →
      approve_lead lead approval_data current_user users now =
        ⟨Except.ok "Lead rejected successfully",
          { lead with lead_status := "cancelled",
                      approved_by := some current_user.username,
                      approval_timestamp := some now,
                      rejection_reason := approval_data.rejection_reason },
          users⟩) := by
  constructor
  · simp only [approve_lead, hrej]
    split
    · rfl
    · split
      · rfl
      · simp
  · intro hrole hstat
    simp [approve_lead, hrole, hstat, hrej]

/-- Witness for C9: `msmith` rejects the pending `lead0`; `jdoe`'s user
document is unchanged and the lead becomes `cancelled` with the reason. -/
theorem reject_preserves_points_witness :
    (approve_lead lead0 ⟨false, some "duplicate", none⟩ msmithActor [jdoe] 4).users
        = [jdoe] ∧
    (msmithActor.role ∈ ["super_admin", "admin_manager", "manager"] →
      lead0.lead_status = "pending" →
      approve_lead lead0 ⟨false, some "duplicate", none⟩ msmithActor [jdoe] 4 =
        ⟨Except.ok "Lead rejected successfully",
          { lead0 with lead_status := "cancelled",
                       approved_by := some msmithActor.username,
                       approval_timestamp := some 4,
                       rejection_reason := some "duplicate" },
          [jdoe]⟩) :=
  reject_preserves_points lead0 ⟨false, some "duplicate", none⟩ msmithActor
    [jdoe] 4 (by decide)

/-- C4 counterexample: marking the cancelled `cancelledLead` as sold does
not fail — the handler has no lead-status check — and it rewrites the lead
to `sold`, refuting "for every lead with lead_status == cancelled the call
fails with an InvalidState error and the lead is unchanged". -/
theorem mark_sold_cancelled_counterexample :
    cancelledLead.lead_status = "cancelled" ∧
    (mark_lead_sold cancelledLead ⟨100, none, none⟩ superActor [jdoe] 8).response
        = Except.ok "Lead marked as sold successfully" ∧
    (mark_lead_sold cancelledLead ⟨100, none, none⟩ superActor [jdoe] 8).lead.lead_status
        = "sold" := by
  refine ⟨rfl, ?_, ?_⟩ <;> simp [mark_lead_sold, check_lead_access, superActor]

/-- C4 amended: the mark-sold operation is legal from every lead status,
cancelled included; whenever the access check passes it succeeds and sets
lead_status to `sold`, the sale amount, the sale date (defaulting to now)
and sold_by to the acting user. -/
theorem mark_sold_sets_sale_fields (lead : Lead) (sale_data : LeadSold)
    (current_user : Actor) (users : List User) (now : Nat)
    (hacc : check_lead_access current_user lead users = true) :
    (mark_lead_sold lead sale_data current_user users now).response =
        Except.ok "Lead marked as sold successfully" ∧
    (mark_lead_sold lead sale_data current_user users now).lead =
      { lead with lead_status := "sold",
                  sale_amount := some sale_data.sale_amount,
                  sale_date := some (sale_data.sale_date.getD now),
                  sale_notes := sale_data.sale_notes,
                  sold_by := some current_user.username } := by
  simp [mark_lead_sold, hacc]

/-- Witness for C4 amended: `admin1` marks the cancelled `cancelledLead`
sold for 100 with an explicit sale date. -/
theorem mark_sold_sets_sale_fields_witness :
    (mark_lead_sold cancelledLead ⟨100, some 9, some "cash"⟩ admin1Actor [jdoe] 8).response
        = Except.ok "Lead marked as sold successfully" ∧
    (mark_lead_sold cancelledLead ⟨100, some 9, some "cash"⟩ admin1Actor [jdoe] 8).lead =
      { cancelledLead with lead_status := "sold",
                           sale_amount := some 100,
                           sale_date := some ((some 9).getD 8),
                           sale_notes := some "cash",
                           sold_by := some admin1Actor.username } :=
  mark_sold_sets_sale_fields cancelledLead ⟨100, some 9, some "cash"⟩
    admin1Actor [jdoe] 8 (by decide)

/-- C3 counterexample: marking `approvedLead` sold with sale amount −150
awards its creator −1 points (Python `int()` truncates toward zero), while
⌊−150 × 0.01⌋ = −2 and the award is negative — refuting both the floor
formula and the no-negative-award clause for arbitrary inputs. -/
theorem commission_negative_counterexample :
    ((mark_lead_sold approvedLead ⟨-150, none, none⟩ superActor [jdoe] 0).users.find?
        (fun u => u.username = "jdoe")).map User.points = some (-1) ∧
    ⌊(-150 : ℚ) * (1 / 100)⌋ = -2 ∧
    ¬ (0 : Int) ≤ -1 := by
  have h : pyInt ((-150 : ℚ) * (1 / 100)) = -1 := by
    rw [pyInt_spec]
    norm_num [Int.floor_eq_iff]
  refine ⟨?_, ?_, by decide⟩
  · simp [mark_lead_sold, check_lead_access, superActor, approvedLead, lead0,
      awardPoints, updateFirst, jdoe]
    have he : (-(150 * (100 : ℚ)⁻¹)) = (-150 : ℚ) * (1 / 100) := by ring
    rw [he, h]
  · norm_num [Int.floor_eq_iff]

/-- C3 amended: a successful mark-sold call awards the creator exactly
`pyInt (sale_amount × 0.01)` — truncation toward zero — with exactly one
new points-history entry carrying that delta; when the sale amount is
nonnegative this equals ⌊sale_amount × 0.01⌋ and is nonnegative. -/
theorem commission_truncation (lead : Lead) (sale_data : LeadSold)
    (current_user : Actor) (users : List User) (now : Nat) (c : User)
    (hacc : check_lead_access current_user lead users = true)
    (hcb : lead.created_by ≠ "")
    (hfind : users.find? (fun u => u.username = lead.created_by) = some c) :
    (mark_lead_sold lead sale_data current_user users now).users.find?
        (fun u => u.username = lead.created_by) =
      some { c with
        points := c.points + pyInt (sale_data.sale_amount * (1 / 100)),
        points_history := c.points_history ++
          [⟨"add", pyInt (sale_data.sale_amount * (1 / 100)),
            "Lead sold: " ++ lead.lead_id⟩] } ∧
    (0 ≤ sale_data.sale_amount →
      pyInt (sale_data.sale_amount * (1 / 100)) =
          ⌊sale_data.sale_amount * (1 / 100)⌋ ∧
      0 ≤ pyInt (sale_data.sale_amount * (1 / 100))) := by
  constructor
  · simp [mark_lead_sold, hacc, hcb, find?_awardPoints, hfind]
  · intro hs
    have hq : 0 ≤ sale_data.sale_amount * (1 / 100) := by positivity
    unfold pyInt
    rw [if_pos hq, rat_floor_eq_floor]
    exact ⟨rfl, Int.le_floor.mpr (by exact_mod_cast hq)⟩

/-- Witness for C3 amended: `admin1` sells `approvedLead` for 2500; `jdoe`
is awarded `pyInt 25 = 25` points with one matching history entry. -/
theorem commission_truncation_witness :
    (mark_lead_sold approvedLead ⟨2500, none, none⟩ admin1Actor [jdoe] 0).users.find?
        (fun u => u.username = approvedLead.created_by) =
      some { jdoe with
        points := jdoe.points + pyInt ((2500 : ℚ) * (1 / 100)),
        points_history := jdoe.points_history ++
          [⟨"add", pyInt ((2500 : ℚ) * (1 / 100)),
            "Lead sold: " ++ approvedLead.lead_id⟩] } ∧
    ((0 : ℚ) ≤ 2500 →
      pyInt ((2500 : ℚ) * (1 / 100)) = ⌊(2500 : ℚ) * (1 / 100)⌋ ∧
      0 ≤ pyInt ((2500 : ℚ) * (1 / 100))) :=
  commission_truncation approvedLead ⟨2500, none, none⟩ admin1Actor [jdoe] 0
    jdoe (by decide) (by decide) (by decide)

/-- C10: mark-superstar has no lead-status precondition — any super_admin,
admin_manager or manager succeeds on a lead in any status — and it
overwrites lead_status with `superstar` while leaving the sale fields in
place (so a sold lead loses its `sold` marker), and every repeated call
awards `priority_level × 10` points to the creator again. -/
theorem mark_superstar_overwrites_status (lead : Lead)
    (superstar_data : SuperstarLead) (current_user : Actor)
    (users : List User) (c : User)
    (hrole : current_user.role ∈ ["super_admin", "admin_manager", "manager"])
    (hcb : lead.created_by ≠ "")
    (hfind : users.find? (fun u => u.username = lead.created_by) = some c) :
    (mark_superstar_lead lead superstar_data current_user users).response =
        Except.ok "Lead marked as superstar successfully" ∧
    (mark_superstar_lead lead superstar_data current_user users).lead =
      { lead with lead_status := "superstar",
                  superstar_info := some ⟨superstar_data.reason,
                    superstar_data.priority_level,
                    superstar_data.special_notes, current_user.username⟩ } ∧
    (mark_superstar_lead lead superstar_data current_user users).users.find?
        (fun u => u.username = lead.created_by) =
      some { c with
        points := c.points + superstar_data.priority_level * 10,
        points_history := c.points_history ++
          [⟨"add", superstar_data.priority_level * 10,
            "Superstar lead: " ++ lead.lead_id⟩] } ∧
    ((mark_superstar_lead
        (mark_superstar_lead lead superstar_data current_user users).lead
        superstar_data current_user
        (mark_superstar_lead lead superstar_data current_user users).users).users.find?
          (fun u => u.username = lead.created_by)).map User.points =
      some (c.points + superstar_data.priority_level * 10 +
        superstar_data.priority_level * 10) ∧
    ((mark_superstar_lead
        (mark_superstar_lead lead superstar_data current_user users).lead
        superstar_data current_user
        (mark_superstar_lead lead superstar_data current_user users).users).users.find?
          (fun u => u.username = lead.created_by)).map
            (fun u => u.points_history.length) =
      some (c.points_history.length + 2) := by
  refine ⟨?_, ?_, ?_, ?_, ?_⟩ <;>
    simp [mark_superstar_lead, hrole, hcb, find?_awardPoints, hfind]

/-- Witness for C10: `msmith` marks the already-sold `soldLead` superstar
twice at priority 3; each call succeeds, the sale fields survive, and
`jdoe` is awarded 30 points per call. -/
theorem mark_superstar_overwrites_status_witness :
    (mark_superstar_lead soldLead ⟨"hot", 3, none⟩ msmithActor [jdoe]).response =
        Except.ok "Lead marked as superstar successfully" ∧
    (mark_superstar_lead soldLead ⟨"hot", 3, none⟩ msmithActor [jdoe]).lead =
      { soldLead with lead_status := "superstar",
                      superstar_info := some ⟨"hot", 3, none,
                        msmithActor.username⟩ } ∧
    (mark_superstar_lead soldLead ⟨"hot", 3, none⟩ msmithActor [jdoe]).users.find?
        (fun u => u.username = soldLead.created_by) =
      some { jdoe with
        points := jdoe.points + 3 * 10,
        points_history := jdoe.points_history ++
          [⟨"add", 3 * 10, "Superstar lead: " ++ soldLead.lead_id⟩] } ∧
    ((mark_superstar_lead
        (mark_superstar_lead soldLead ⟨"hot", 3, none⟩ msmithActor [jdoe]).lead
        ⟨"hot", 3, none⟩ msmithActor
        (mark_superstar_lead soldLead ⟨"hot", 3, none⟩ msmithActor [jdoe]).users).users.find?
          (fun u => u.username = soldLead.created_by)).map User.points =
      some (jdoe.points + 3 * 10 + 3 * 10) ∧
    ((mark_superstar_lead
        (mark_superstar_lead soldLead ⟨"hot", 3, none⟩ msmithActor [jdoe]).lead
        ⟨"hot", 3, none⟩ msmithActor
        (mark_superstar_lead soldLead ⟨"hot", 3, none⟩ msmithActor [jdoe]).users).users.find?
          (fun u => u.username = soldLead.created_by)).map
            (fun u => u.points_history.length) =
      some (jdoe.points_history.length + 2) :=
  mark_superstar_overwrites_status soldLead ⟨"hot", 3, none⟩ msmithActor
    [jdoe] jdoe (by decide) (by decide) (by decide)

/-- C6: a manager's access to a lead created by one of the organization's
canvassers holds exactly when the canvasser's manager_id (as stored in the
users collection passed to the check) equals the manager's username and
the lead's organization matches the manager's; the check reads that
manager_id from the store on every call, so against a store where the
canvasser's manager_id no longer names the manager the check denies. -/
theorem manager_lead_access_iff (m : Actor) (lead : Lead)
    (users users2 : List User) (c c2 : User)
    (hrole : m.role = "manager")
    (_hcanv : c.role = "canvasser")
    (hc : users.find? (fun u => u.username = lead.created_by) = some c)
    (hc2 : users2.find? (fun u => u.username = lead.created_by) = some c2)
    (hrev : c2.manager_id ≠ some m.username) :
    (check_lead_access m lead users = true ↔
      (c.manager_id = some m.username ∧
        lead.organization_id = m.organization_id)) ∧
    check_lead_access m lead users2 = false := by
  constructor
  · by_cases horg : lead.organization_id = m.organization_id
    · simp [check_lead_access, hrole, horg, hc]
    · simp [check_lead_access, hrole, horg, hc]
  · by_cases horg : lead.organization_id = m.organization_id
    · simp [check_lead_access, hrole, horg, hc2, hrev]
    · simp [check_lead_access, hrole, horg]

/-- Witness for C6: `msmith` can access `jdoe`'s `lead0` against the store
where `jdoe.manager_id = msmith`, and loses access against the store where
it was reassigned to `other`. -/
theorem manager_lead_access_iff_witness :
    (check_lead_access msmithActor lead0 [jdoe] = true ↔
      (jdoe.manager_id = some msmithActor.username ∧
        lead0.organization_id = msmithActor.organization_id)) ∧
    check_lead_access msmithActor lead0
      [{ jdoe with manager_id := some "other" }] = false :=
  manager_lead_access_iff msmithActor lead0 [jdoe]
    [{ jdoe with manager_id := some "other" }] jdoe
    { jdoe with manager_id := some "other" }
    (by decide) (by decide) (by decide) (by decide) (by decide)

/-- C5 counterexample: the generic `check_user_access` helper grants an
admin_manager access to a same-organization super_admin target that is not
the actor — refuting the claimed iff for that access function. -/
theorem admin_manager_user_access_counterexample :
    ¬ (check_user_access admin1Actor rootUser = true ↔
      (rootUser.organization_id = admin1Actor.organization_id ∧
        (rootUser.role ∉ ["super_admin", "admin_manager"] ∨
          rootUser.id = admin1Actor.id))) := by
  decide

/-- C5 amended: the claimed rule is enforced only by the user-update
route's `can_update` gate: for an admin_manager actor (whose token role
agrees with their stored document), `can_update` allows a target exactly
when the organizations match and the target's role is not super_admin or
admin_manager, unless the target is the actor themself; the generic
`check_user_access` helper checks only the organization. -/
theorem admin_manager_can_update_iff (current_user : Actor)
    (target_user : User)
    (hrole : current_user.role = "admin_manager")
    (hconsist : target_user.id = current_user.id →
      target_user.role = current_user.role) :
    can_update current_user target_user = true ↔
      (target_user.organization_id = current_user.organization_id ∧
        (target_user.role ∉ ["super_admin", "admin_manager"] ∨
          target_user.id = current_user.id)) := by
  by_cases horg :
      target_user.organization_id = current_user.organization_id
  · by_cases hid : target_user.id = current_user.id
    · have ht : target_user.role = "admin_manager" := by
        rw [hconsist hid, hrole]
      simp [can_update, hrole, horg, hid, ht]
    · simp [can_update, hrole, horg, hid]
  · simp [can_update, hrole, horg]

/-- Witness for C5 amended: `admin1` may update the same-organization
manager `msmith` per `can_update`. -/
theorem admin_manager_can_update_iff_witness :
    can_update admin1Actor msmithUser = true ↔
      (msmithUser.organization_id = admin1Actor.organization_id ∧
        (msmithUser.role ∉ ["super_admin", "admin_manager"] ∨
          msmithUser.id = admin1Actor.id)) :=
  admin_manager_can_update_iff admin1Actor msmithUser (by decide) (by decide)

/-- C1: for a genuine role-change attempt in the user-update operation
(a non-empty requested role differing from the target's current role):
a super_admin may assign any of the four roles; an admin_manager's attempt
to assign admin_manager or super_admin fails with a permission error while
manager or canvasser is assigned whenever the update gate admits the
target; managers and canvassers can never change any role field, their own
included. -/
theorem role_change_tier_rule (current_user : Actor) (target_user : User)
    (r : String) (hr : r ≠ "") (hne : r ≠ target_user.role) :
    (current_user.role = "super_admin" →
      r ∈ ["super_admin", "admin_manager", "manager", "canvasser"] →
      update_user current_user target_user ⟨some r⟩ = Except.ok (some r)) ∧
    (current_user.role = "admin_manager" →
      (r ∈ ["super_admin", "admin_manager"] →
        ∃ e, update_user current_user target_user ⟨some r⟩ =
          Except.error e) ∧
      (r ∈ ["manager", "canvasser"] →
        can_update current_user target_user = true →
        update_user current_user target_user ⟨some r⟩ =
          Except.ok (some r))) ∧
    (current_user.role = "manager" →
      ∃ e, update_user current_user target_user ⟨some r⟩ =
        Except.error e) ∧
    (current_user.role = "canvasser" →
      ∃ e, update_user current_user target_user ⟨some r⟩ =
        Except.error e) := by
  refine ⟨?_, ?_, ?_, ?_⟩
  · intro hrole hmem
    simp [update_user, can_update, role_change_permissions, hrole, hr, hne,
      hmem]
  · intro hrole
    constructor
    · intro hmem
      by_cases hcu : can_update current_user target_user = true
      · refine ⟨current_user.role ++ " cannot change user role to " ++ r, ?_⟩
        simp only [List.mem_cons, List.mem_singleton] at hmem
        rcases hmem with rfl | rfl | h
        · simp [update_user, role_change_permissions, hcu, hrole, hne]
        · simp [update_user, role_change_permissions, hcu, hrole, hne]
        · cases h
      · refine ⟨current_user.role ++ " cannot update this user", ?_⟩
        simp [update_user, hcu]
    · intro hmem hcu
      simp only [List.mem_cons, List.mem_singleton] at hmem
      rcases hmem with rfl | rfl | h
      · simp [update_user, role_change_permissions, hcu, hrole, hne]
      · simp [update_user, role_change_permissions, hcu, hrole, hne]
      · cases h
  · intro hrole
    by_cases hcu : can_update current_user target_user = true
    · refine ⟨current_user.role ++ " cannot change user role to " ++ r, ?_⟩
      simp [update_user, role_change_permissions, hcu, hrole, hr, hne]
    · refine ⟨current_user.role ++ " cannot update this user", ?_⟩
      simp [update_user, hcu]
  · intro hrole
    by_cases hcu : can_update current_user target_user = true
    · refine ⟨current_user.role ++ " cannot change user role to " ++ r, ?_⟩
      simp [update_user, role_change_permissions, hcu, hrole, hr, hne]
    · refine ⟨current_user.role ++ " cannot update this user", ?_⟩
      simp [update_user, hcu]

/-- Witness for C1: `admin1` requests role `manager` for the canvasser
`jdoe`; the super_admin/manager/canvasser branches hold vacuously and the
admin_manager branch grants the change. -/
theorem role_change_tier_rule_witness :
    (admin1Actor.role = "super_admin" →
      "manager" ∈ ["super_admin", "admin_manager", "manager", "canvasser"] →
      update_user admin1Actor jdoe ⟨some "manager"⟩ =
        Except.ok (some "manager")) ∧
    (admin1Actor.role = "admin_manager" →
      ("manager" ∈ ["super_admin", "admin_manager"] →
        ∃ e, update_user admin1Actor jdoe ⟨some "manager"⟩ =
          Except.error e) ∧
      ("manager" ∈ ["manager", "canvasser"] →
        can_update admin1Actor jdoe = true →
        update_user admin1Actor jdoe ⟨some "manager"⟩ =
          Except.ok (some "manager"))) ∧
    (admin1Actor.role = "manager" →
      ∃ e, update_user admin1Actor jdoe ⟨some "manager"⟩ =
        Except.error e) ∧
    (admin1Actor.role = "canvasser" →
      ∃ e, update_user admin1Actor jdoe ⟨some "manager"⟩ =
        Except.error e) :=
  role_change_tier_rule admin1Actor jdoe "manager" (by decide) (by decide)

/-- The users collection of the C8 scenario: `jdoe` at baseline, with
manager `msmith` and admin `admin1` in `org_1`. -/
def scenarioUsers : List User := [jdoe, msmithUser, admin1User]

/-- Step 1 of the C8 scenario: `jdoe` creates a lead at instant 5. -/
def c8_r1 : CreateLeadResult :=
  create_lead_with_notifications jdoeActor scenarioUsers [] 5

/-- The lead document inserted by step 1. -/
def c8_lead1 : Lead := c8_r1.leads.getLastD lead0

/-- Step 2 of the C8 scenario: `msmith` approves the lead at instant 6. -/
def c8_r2 : LeadResult :=
  approve_lead c8_lead1 ⟨true, none, none⟩ msmithActor c8_r1.users 6

/-- Step 3 of the C8 scenario: `admin1` marks the lead sold for 1000 at
instant 7. -/
def c8_r3 : LeadResult :=
  mark_lead_sold c8_r2.lead ⟨1000, none, none⟩ admin1Actor c8_r2.users 7

/-- C8: the canvasser-create / manager-approve / admin-sell pipeline:
creation leaves the lead pending and pays `jdoe` 10 points at once,
approval sets `approved`/`approved_by=msmith` and pays 25 more, and the
1000.00 sale sets `sold` and pays `⌊1000 × 0.01⌋ = 10` — a total delta of
45 points over exactly 3 history entries. -/
theorem canvasser_lead_scenario :
    c8_r1.response = Except.ok ("pending", 10) ∧
    c8_lead1.lead_status = "pending" ∧
    (c8_r1.users.find? (fun u => u.username = "jdoe")).map User.points =
      some 10 ∧
    c8_r2.response = Except.ok "Lead approved successfully" ∧
    c8_r2.lead.lead_status = "approved" ∧
    c8_r2.lead.approved_by = some "msmith" ∧
    (c8_r2.users.find? (fun u => u.username = "jdoe")).map User.points =
      some 35 ∧
    c8_r3.response = Except.ok "Lead marked as sold successfully" ∧
    c8_r3.lead.lead_status = "sold" ∧
    (c8_r3.users.find? (fun u => u.username = "jdoe")).map User.points =
      some 45 ∧
    (c8_r3.users.find? (fun u => u.username = "jdoe")).map
      (fun u => u.points_history.length) = some 3 := by
  have h10 : pyInt ((1000 : ℚ) * (1 / 100)) = 10 := by
    rw [pyInt_spec]
    norm_num [Int.floor_eq_iff]
  refine ⟨rfl, rfl, rfl, rfl, rfl, rfl, rfl, rfl, rfl, ?_, rfl⟩
  calc (c8_r3.users.find? (fun u => u.username = "jdoe")).map User.points
      = some (jdoe.points + 10 + 25 + pyInt ((1000 : ℚ) * (1 / 100))) := rfl
    _ = some 45 := by rw [h10]; rfl

/-- The create-competition request of the C7 failing input: mode `all`
over canvassers with a minimum of 2 participants. -/
def c7_data : CompetitionCreate :=
  { title := "Spring Sprint", start_date := 0, end_date := 10,
    prize_points := 100, target_roles := ["canvasser"],
    min_participants := 2, is_active := true,
    participant_selection_mode := "all", selected_participants := none }

/-- C7: at the failing input — an organization with a single eligible
canvasser and a minimum of 2 — the create-competition handler does reject
the request with an error, but the competition document has already been
inserted and stays in the store, violating "no competition document is
persisted". -/
theorem competition_minimum_after_insert :
    (create_competition admin1Actor c7_data [jdoe] [] 5).response =
      Except.error "Not enough eligible participants" ∧
    (create_competition admin1Actor c7_data [jdoe] [] 5).competitions.length
      = 1 :=
  ⟨rfl, rfl⟩

end Canvas
